import Mathlib

/-!
Shallow embedding of the INIR2-ME-100 methane sensor driver
(`INIR2ME100Methane.py`, `FaultCodes.py`).

Machine integers are modelled as `Nat`; Python float arithmetic on the
decoded readings is modelled over `ℚ` (the concrete claim values are
exactly representable, where every rounding mode agrees).  Python
exceptions become explicit error constructors in `Except` results, one
constructor per exception site, named after the error taxonomy of the spec.
-/

deriving instance DecidableEq for Except

/-- Value of one hex digit, as accepted by Python `int(_, 16)` /
`bytes.fromhex` on plain hex-digit strings (both cases accepted). -/
def hexDigitVal (c : Char) : Option Nat :=
  if '0' ≤ c ∧ c ≤ '9' then some (c.toNat - '0'.toNat)
  else if 'a' ≤ c ∧ c ≤ 'f' then some (c.toNat - 'a'.toNat + 10)
  else if 'A' ≤ c ∧ c ≤ 'F' then some (c.toNat - 'A'.toNat + 10)
  else none

/-- Python `int(s, 16)` restricted to plain hex-digit strings: `none` models
the `ValueError` on an empty or non-hex string.  (Python additionally
tolerates sign/whitespace/`0x` decorations, which no protocol token and no
claim uses.) -/
def hexToNat? (s : String) : Option Nat :=
  if s.isEmpty then none
  else
    s.data.foldl
      (fun acc c =>
        match acc, hexDigitVal c with
        | some a, some d => some (a * 16 + d)
        | _, _ => none)
      (some 0)

/-- Errors of `decode_single_hex_value`.  In Python the first three are
`ValueError`s with distinct messages and the last is the
`UnicodeDecodeError` raised by UTF-8-decoding the `bytes.fromhex` result. -/
inductive DecodeErr where
  | invalidLength
  | unsupportedMode
  | malformedHexValue
  | unicodeDecodeError
deriving DecidableEq

/-- Result of `decode_single_hex_value`: a `str` in ascii mode, an `int`
in decimal mode. -/
inductive DecodedValue where
  | ascii (c : Char)
  | decimal (n : Nat)
deriving DecidableEq

/-- Function `decode_single_hex_value(hex_value, conversion_type)` from
`INIR2ME100Methane.py`.  The length check precedes the mode dispatch.
In ascii mode, UTF-8-decoding `bytes.fromhex(hex_value)` on a single
byte succeeds exactly when the byte is `< 0x80` (a lone byte `≥ 0x80` is
not valid UTF-8), yielding the character with that code point. -/
def decode_single_hex_value (hex_value : String) (conversion_type : String) :
    Except DecodeErr DecodedValue :=
  if hex_value.length ≠ 2 then .error .invalidLength
  else if conversion_type = "ascii" then
    match hexToNat? hex_value with
    | none => .error .malformedHexValue
    | some n =>
      if n < 128 then .ok (.ascii (Char.ofNat n)) else .error .unicodeDecodeError
  else if conversion_type = "decimal" then
    match hexToNat? hex_value with
    | none => .error .malformedHexValue
    | some n => .ok (.decimal n)
  else .error .unsupportedMode

/-- Errors of the fault decoder (`FaultCodes.py`): `unknownFaultCode` is
the `UnknownFaultCode` raised on a table miss, `emptyFaultCode` the
`ValueError` (expecting 8 bits in the fault code) raised by
`validate_fault_code_response` on an empty string. -/
inductive FaultErr where
  | unknownFaultCode
  | emptyFaultCode
deriving DecidableEq

/-- Table `FaultCodes.fault_table`: category (outer dict key) → fault digit
(inner dict key) → description, reproduced character for character. -/
def fault_table (category : Int) (fault_bit : Char) : Option String :=
  if category = 0 then
    match fault_bit with
    | '1' => some "Sensor not Present"
    | '2' => some "Temperature sensor not working OR Device Temperature Out of the Operating Range"
    | '3' => some "Active or Reference are weak"
    | '4' => some "First Time Configuration Mode, no settings present"
    | _ => none
  else if category = 1 then
    match fault_bit with
    | '1' => some "Last Reset was because of a Power on Reset"
    | '2' => some "Last Reset was because of a Watchdog Timer"
    | '3' => some "Last Reset was because of a Software Reset"
    | '4' => some "Last Reset was because of an External Pin Interrupt"
    | _ => none
  else if category = 2 then
    match fault_bit with
    | '1' => some "Gas concentration is not stable yet."
    | _ => none
  else if category = 3 then
    match fault_bit with
    | '1' => some "DAC is switched off"
    | '2' => some "DAC output disable in Configuration mode"
    | _ => none
  else if category = 4 then
    match fault_bit with
    | '1' => some "Break Indicator P1.0 set LOW for more than the maximum word length"
    | '2' => some "Framing Error, stop bit was invalid"
    | '3' => some "Parity Error, stop bit was invalid"
    | '4' => some "Overrun Error, data overwrite before being read"
    | _ => none
  else if category = 5 then
    match fault_bit with
    | '1' => some "Timer1 Error"
    | '2' => some "Timer2/Watchdog Error"
    | _ => none
  else if category = 6 then
    match fault_bit with
    | '1' => some "Over Range of Conc.%v.v Operation > Full Scale"
    | '2' => some "Under Range of Conc.%v.v"
    | '3' => some "Warm-Up Time, data not valid"
    | _ => none
  else if category = 7 then
    match fault_bit with
    | '1' => some "Unable to store Data, to the INIR"
    | '2' => some "Unable to read Data from the INIR"
    | _ => none
  else none

/-- The loop body of `FaultCodes.extract_faults`: process the fault
characters left to right; the category counter (an `Int`, since the Python
counter keeps decrementing below zero on over-long inputs) decrements once
per character in both branches.  `fault_bit.lower() == 'a'` skips;
otherwise `fault_table[category][fault_bit]` is appended, a `KeyError`
becoming `UnknownFaultCode` and aborting the whole decode. -/
def extract_faults_aux : List Char → Int → Except FaultErr (List String)
  | [], _ => .ok []
  | c :: rest, category =>
    if c.toLower = 'a' then
      extract_faults_aux rest (category - 1)
    else
      match fault_table category c with
      | none => .error .unknownFaultCode
      | some d => (extract_faults_aux rest (category - 1)).map (fun l => d :: l)

/-- Method `FaultCodes.extract_faults`: category counter starts at 7 (bit 7 is
the most significant, first character). -/
def extract_faults (raw : String) : Except FaultErr (List String) :=
  extract_faults_aux raw.data 7

/-- Method `FaultCodes.validate_fault_code_response`: rejects exactly the empty
string (`if not len(self._raw_value)`). -/
def validate_fault_code_response (raw : String) : Except FaultErr Unit :=
  if raw.length = 0 then .error .emptyFaultCode else .ok ()

/-- Constructor `FaultCodes.__init__(raw)`: validates first, then extracts; either
failure propagates to the caller. -/
def FaultCodes_init (raw : String) : Except FaultErr (List String) := do
  let _ ← validate_fault_code_response raw
  extract_faults raw

/-- Method `Sensor.get_fault_descriptions`: constructs `FaultCodes(self.faults)`
(running validation and a first extraction in `__init__`) and then calls
`extract_faults()` on it. -/
def get_fault_descriptions (faults : String) : Except FaultErr (List String) := do
  let _ ← FaultCodes_init faults
  extract_faults faults

/-- Constant `START_FRAME`, the token `0000005b`, from `INIR2ME100Methane.py`. -/
def START_FRAME : String := "0000005b"

/-- Constant `END_FRAME`, the token `0000005d`, from `INIR2ME100Methane.py`. -/
def END_FRAME : String := "0000005d"

/-- Constant `Sensor.START_CHAR`. -/
def START_CHAR : String := "0000005b"

/-- Constant `Sensor.END_CHAR`. -/
def END_CHAR : String := "0000005d"

/-- The inner read loop of `INIR2ME100._read_frame`
(`while self._serial_port_object.in_waiting and read_attempts < 20`).

The serial buffer is a list of tokens; `in_waiting` is the buffer being
non-empty; each read consumes one token and increments `read_attempts`.
A token is `none` when `data_in.decode("ascii")` would raise
`UnicodeDecodeError` (the read still counts, the token is discarded),
`some t` for the decoded, stripped text.  A decoded token is discarded
while the accumulator is empty unless it is the start marker; otherwise
it is appended, and an appended end marker breaks the loop.
Returns (remaining buffer, accumulator, read_attempts). -/
def read_inner : List (Option String) → List String → Nat →
    List (Option String) × List String × Nat
  | [], message, ra => ([], message, ra)
  | tok :: rest, message, ra =>
    if ra < 20 then
      match tok with
      | none => read_inner rest message (ra + 1)
      | some t =>
        if t ≠ START_FRAME ∧ message = [] then read_inner rest message (ra + 1)
        else if t = END_FRAME then (rest, message ++ [t], ra + 1)
        else read_inner rest (message ++ [t]) (ra + 1)
    else (tok :: rest, message, ra)

/-- The outer timeout loop of `INIR2ME100._read_frame`
(`while time.time() < t_end`).

Wall-clock time is modelled as fuel: one tick per outer iteration (each
iteration sleeps a fixed 0.5 s, so `TIMEOUT` seconds allow
`TIMEOUT / 0.5` iterations before `t_end`).  `arrivals` lists the tokens
newly delivered by the serial line during the sleep of each iteration; they
are appended to the yet-unread buffer.  `read_attempts` is initialised
once by the caller and threaded through — the source never resets it.
The loop breaks as soon as the accumulator holds exactly 7 tokens.
Returns (accumulator, read_attempts). -/
def read_outerS : Nat → List (List (Option String)) → List (Option String) →
    List String → Nat → List String × Nat
  | 0, _, _, message, ra => (message, ra)
  | ticks + 1, arrivals, buffer, message, ra =>
    let r := read_inner (buffer ++ arrivals.headD []) message ra
    if r.2.1.length = 7 then (r.2.1, r.2.2)
    else read_outerS ticks arrivals.tail r.1 r.2.1 r.2.2

/-- Method `INIR2ME100._read_frame`: run the timeout loop starting from an empty
accumulator and `read_attempts = 0`; afterwards, fewer than 7 accumulated
tokens raise `TimeoutError` carrying the partly assembled message
(modelled as the `error` payload), otherwise the message is returned. -/
def _read_frame (arrivals : List (List (Option String))) (ticks : Nat) :
    Except (List String) (List String) :=
  let r := read_outerS ticks arrivals [] [] 0
  if r.1.length < 7 then .error r.1 else .ok r.1

/-- A token the synchronizer treats as noise while unsynchronized: either
undecodable, or decodable but different from the start marker. -/
def noiseTok : Option String → Bool
  | none => true
  | some t => t != START_FRAME

/-- Exception `MessageIntegrityError`, carrying the offending token that the
Python code interpolates into the exception message (the f-string
"Bad start char. should be [, got ..." / "Bad end char. ..."). -/
inductive IntegrityErr where
  | badStart (got : String)
  | badEnd (got : String)
deriving DecidableEq

/-- Method `Sensor.validate_response`: checks `message[0]` against `START_CHAR`
and `message[6]` against `END_CHAR`, in that order, and nothing else
(the CRC fields, `message[4]` and `message[5]`, are never inspected).
Indexing is modelled with `getD`; the Python `IndexError` on frames
shorter than 7 tokens is outside the scope of every claim. -/
def validate_response (message : List String) : Except IntegrityErr Bool :=
  if message.getD 0 "" ≠ START_CHAR then .error (.badStart (message.getD 0 ""))
  else if message.getD 6 "" ≠ END_CHAR then .error (.badEnd (message.getD 6 ""))
  else .ok true

/-- Round a rational to 2 decimal places, modelling Python
`round(x, 2)`.  (Python rounds the nearest IEEE double half-to-even; the
claim values are exact multiples of 1/100, where every rounding mode
agrees, so the mode is immaterial here.) -/
def round2 (x : ℚ) : ℚ := (round (x * 100) : ℚ) / 100

/-- The decoded reading: `Sensor._gas_concentration` (percent by volume),
`Sensor._faults` (the verbatim fault-code token) and
`Sensor._temperature` (Celsius, rounded to 2 decimals). -/
structure Reading where
  gas_concentration : ℚ
  faults : String
  temperature : ℚ
deriving DecidableEq

/-- Errors escaping `Sensor.gas_concentration`: `sensorReadError` is the
`INIRException` wrapper (spec: `SensorReadError`) raised by the
`except (UnicodeDecodeError, MessageIntegrityError)` clause;
`frameTimeout` is the `TimeoutError` from `_read_frame`, which that
clause does not list and which therefore propagates unwrapped;
`malformedHexValue` is the uncaught `ValueError` of `int(_, 16)` on a
non-hex field. -/
inductive SensorErr where
  | sensorReadError (cause : IntegrityErr)
  | frameTimeout (pmsg : List String)
  | malformedHexValue
deriving DecidableEq

/-- Discriminator: is this error the wrapper type of the Facade? -/
def SensorErr.isWrapped : SensorErr → Bool
  | .sensorReadError _ => true
  | _ => false

/-- Method `Sensor.gas_concentration(frame=None)`.

`raw_ascii_frame = frame or self.read_frame()`: a falsy `frame` (absent,
or the empty list) falls back to reading the serial port, whose outcome
is the `readRes` argument (`ok` a message, `error` the `TimeoutError`
payload).  `validate_response` failures are caught and re-raised as the
`INIRException` wrapper; the `TimeoutError` is not caught.  Then field 1
is converted to percent-by-volume (`int(_,16) / 10000`), field 2 stored
verbatim as the fault code and field 3 converted to Celsius
(`round(int(_,16) / 10 - 273.15, 2)`). -/
def gas_concentration (frame : Option (List String))
    (readRes : Except (List String) (List String)) : Except SensorErr Reading :=
  let raw? : Except SensorErr (List String) :=
    match frame with
    | some f =>
      if f.isEmpty then
        match readRes with
        | .ok m => .ok m
        | .error p => .error (.frameTimeout p)
      else .ok f
    | none =>
      match readRes with
      | .ok m => .ok m
      | .error p => .error (.frameTimeout p)
  match raw? with
  | .error e => .error e
  | .ok raw =>
    match validate_response raw with
    | .error e => .error (.sensorReadError e)
    | .ok _ =>
      match hexToNat? (raw.getD 1 "") with
      | none => .error .malformedHexValue
      | some ppm =>
        match hexToNat? (raw.getD 3 "") with
        | none => .error .malformedHexValue
        | some dk =>
          .ok { gas_concentration := (ppm : ℚ) / 10000,
                faults := raw.getD 2 "",
                temperature := round2 ((dk : ℚ) / 10 - 27315 / 100) }

/-- The documented good example frame (`test_INIR2ME100.py`). -/
def good_frame : List String :=
  ["0000005b", "000489ae", "a1aaaa1a", "00000ba6", "0000031b", "fffffce4", "0000005d"]

/-- The documented bad example frame (wrong start marker). -/
def bad_frame : List String :=
  ["00000000", "00010011", "a1aaaa1a", "00000ba6", "0000031b", "fffffce4", "0000005d"]

lemma fault_table_nine (cat : Int) : fault_table cat '9' = none := by
  unfold fault_table
  repeat' split
  all_goals simp_all

lemma extract_faults_aux_nine (l : List Char) :
    ∀ cat : Int, '9' ∈ l → extract_faults_aux l cat = .error .unknownFaultCode := by
  induction l with
  | nil => intro cat h; simp at h
  | cons c rest ih =>
    intro cat h
    by_cases hc : c.toLower = 'a'
    · have h9 : '9' ∈ rest := by
        rcases List.mem_cons.mp h with h | h
        · exfalso
          have : c = '9' := h.symm
          rw [this] at hc
          exact absurd hc (by decide)
        · exact h
      simp only [extract_faults_aux, if_pos hc]
      exact ih (cat - 1) h9
    · by_cases h9c : c = '9'
      · subst h9c
        simp only [extract_faults_aux, if_neg hc, fault_table_nine]
      · have h9 : '9' ∈ rest := by
          rcases List.mem_cons.mp h with h | h
          · exact absurd h.symm h9c
          · exact h
        simp only [extract_faults_aux, if_neg hc]
        cases hft : fault_table cat c with
        | none => rfl
        | some d => rw [ih (cat - 1) h9]; rfl

lemma read_inner_ra_bound (buffer : List (Option String)) :
    ∀ (message : List String) (ra : Nat), ra ≤ 20 →
      (read_inner buffer message ra).2.2 ≤ 20 ∧ ra ≤ (read_inner buffer message ra).2.2 := by
  induction buffer with
  | nil => intro message ra h; exact ⟨h, Nat.le_refl ra⟩
  | cons tok rest ih =>
    intro message ra h
    by_cases hra : ra < 20
    · cases tok with
      | none =>
        simp only [read_inner, if_pos hra]
        have := ih message (ra + 1) (by omega)
        exact ⟨this.1, Nat.le_trans (Nat.le_succ ra) this.2⟩
      | some t =>
        simp only [read_inner, if_pos hra]
        by_cases hc : t ≠ START_FRAME ∧ message = []
        · rw [if_pos hc]
          have := ih message (ra + 1) (by omega)
          exact ⟨this.1, Nat.le_trans (Nat.le_succ ra) this.2⟩
        · rw [if_neg hc]
          by_cases he : t = END_FRAME
          · rw [if_pos he]
            exact ⟨show ra + 1 ≤ 20 by omega, show ra ≤ ra + 1 from Nat.le_succ ra⟩
          · rw [if_neg he]
            have := ih (message ++ [t]) (ra + 1) (by omega)
            exact ⟨this.1, Nat.le_trans (Nat.le_succ ra) this.2⟩
    · simp only [read_inner, if_neg hra]
      exact ⟨h, Nat.le_refl ra⟩

lemma read_inner_noise (buffer : List (Option String)) :
    ∀ ra : Nat, (∀ tok ∈ buffer, noiseTok tok = true) →
      (read_inner buffer [] ra).2.1 = [] ∧
      ∀ tok ∈ (read_inner buffer [] ra).1, noiseTok tok = true := by
  induction buffer with
  | nil => intro ra _; exact ⟨rfl, by intro tok htok; simp [read_inner] at htok⟩
  | cons tok rest ih =>
    intro ra h
    by_cases hra : ra < 20
    · cases tok with
      | none =>
        simp only [read_inner, if_pos hra]
        exact ih (ra + 1) (fun t ht => h t (List.mem_cons_of_mem _ ht))
      | some t =>
        have ht : t ≠ START_FRAME := by
          have := h (some t) (List.mem_cons_self _ _)
          simpa [noiseTok, bne_iff_ne] using this
        simp only [read_inner, if_pos hra, and_true]
        rw [if_pos ht]
        exact ih (ra + 1) (fun t' ht' => h t' (List.mem_cons_of_mem _ ht'))
    · simp only [read_inner, if_neg hra]
      exact ⟨trivial, h⟩

lemma read_outerS_noise (ticks : Nat) :
    ∀ (arrivals : List (List (Option String))) (buffer : List (Option String)) (ra : Nat),
      (∀ b ∈ arrivals, ∀ tok ∈ b, noiseTok tok = true) →
      (∀ tok ∈ buffer, noiseTok tok = true) →
      (read_outerS ticks arrivals buffer [] ra).1 = [] := by
  induction ticks with
  | zero => intro arrivals buffer ra _ _; rfl
  | succ t ih =>
    intro arrivals buffer ra harr hbuf
    have hbatch : ∀ tok ∈ buffer ++ arrivals.headD [], noiseTok tok = true := by
      intro tok htok
      rcases List.mem_append.mp htok with h | h
      · exact hbuf tok h
      · cases arrivals with
        | nil => simp at h
        | cons b bs => exact harr b (List.mem_cons_self _ _) tok h
    have hin := read_inner_noise (buffer ++ arrivals.headD []) ra hbatch
    simp only [read_outerS]
    have h7 : ¬ ((read_inner (buffer ++ arrivals.headD []) [] ra).2.1.length = 7) := by
      rw [hin.1]; simp
    rw [if_neg h7, hin.1]
    exact ih arrivals.tail _ _
      (fun b hb => harr b (List.mem_of_mem_tail hb)) hin.2

lemma read_inner_cons_eq (tok : Option String) (rest : List (Option String))
    (message : List String) (ra : Nat) :
    read_inner (tok :: rest) message ra =
      if ra < 20 then
        match tok with
        | none => read_inner rest message (ra + 1)
        | some t =>
          if t ≠ START_FRAME ∧ message = [] then read_inner rest message (ra + 1)
          else if t = END_FRAME then (rest, message ++ [t], ra + 1)
          else read_inner rest (message ++ [t]) (ra + 1)
      else (tok :: rest, message, ra) := rfl

lemma read_inner_discard_step (t : String) (rest : List (Option String)) (ra : Nat)
    (hlt : ra < 20) (ht : t ≠ START_FRAME) :
    read_inner (some t :: rest) [] ra = read_inner rest [] (ra + 1) := by
  rw [read_inner_cons_eq, if_pos hlt]
  show (if t ≠ START_FRAME ∧ ([] : List String) = [] then _ else _) = _
  rw [if_pos ⟨ht, rfl⟩]

lemma read_inner_append_step (t : String) (rest : List (Option String))
    (message : List String) (ra : Nat) (hlt : ra < 20) (hmsg : message ≠ [])
    (hend : t ≠ END_FRAME) :
    read_inner (some t :: rest) message ra = read_inner rest (message ++ [t]) (ra + 1) := by
  rw [read_inner_cons_eq, if_pos hlt]
  show (if t ≠ START_FRAME ∧ message = [] then _ else _) = _
  rw [if_neg (fun hc => hmsg hc.2), if_neg hend]

lemma read_inner_end_step (rest : List (Option String)) (message : List String) (ra : Nat)
    (hlt : ra < 20) (hmsg : message ≠ []) :
    read_inner (some END_FRAME :: rest) message ra = (rest, message ++ [END_FRAME], ra + 1) := by
  rw [read_inner_cons_eq, if_pos hlt]
  show (if END_FRAME ≠ START_FRAME ∧ message = [] then _ else _) = _
  rw [if_neg (fun hc => hmsg hc.2), if_pos rfl]

lemma read_inner_start_step (rest : List (Option String)) (ra : Nat) (hlt : ra < 20) :
    read_inner (some START_FRAME :: rest) [] ra = read_inner rest [START_FRAME] (ra + 1) := by
  rw [read_inner_cons_eq, if_pos hlt]
  show (if START_FRAME ≠ START_FRAME ∧ ([] : List String) = [] then _ else _) = _
  rw [if_neg (fun hc => hc.1 rfl), if_neg (by decide : ¬ (START_FRAME = END_FRAME))]
  rfl

lemma read_inner_discard (fragment : List String) :
    ∀ (rest : List (Option String)) (ra : Nat),
      (∀ t ∈ fragment, t ≠ START_FRAME) → ra + fragment.length ≤ 20 →
      read_inner (fragment.map some ++ rest) [] ra =
        read_inner rest [] (ra + fragment.length) := by
  induction fragment with
  | nil => intro rest ra _ _; simp
  | cons t frag ih =>
    intro rest ra h hra
    have ht : t ≠ START_FRAME := h t (List.mem_cons_self _ _)
    have hlen : (t :: frag).length = frag.length + 1 := List.length_cons _ _
    have hlt : ra < 20 := by omega
    rw [List.map_cons, List.cons_append, read_inner_discard_step t _ ra hlt ht,
      ih rest (ra + 1) (fun t' ht' => h t' (List.mem_cons_of_mem _ ht')) (by omega)]
    congr 1
    omega

lemma read_inner_frame (s1 s2 s3 s4 s5 : String) (ra : Nat) (hra : ra + 7 ≤ 20)
    (h1 : s1 ≠ END_FRAME) (h2 : s2 ≠ END_FRAME) (h3 : s3 ≠ END_FRAME)
    (h4 : s4 ≠ END_FRAME) (h5 : s5 ≠ END_FRAME) :
    read_inner [some START_FRAME, some s1, some s2, some s3, some s4, some s5,
        some END_FRAME] [] ra =
      ([], [START_FRAME, s1, s2, s3, s4, s5, END_FRAME], ra + 7) := by
  rw [read_inner_start_step _ ra (by omega),
    read_inner_append_step s1 _ _ _ (by omega) (by simp) h1,
    read_inner_append_step s2 _ _ _ (by omega) (by simp) h2,
    read_inner_append_step s3 _ _ _ (by omega) (by simp) h3,
    read_inner_append_step s4 _ _ _ (by omega) (by simp) h4,
    read_inner_append_step s5 _ _ _ (by omega) (by simp) h5,
    read_inner_end_step _ _ _ (by omega) (by simp)]
  simp only [Prod.mk.injEq]
  exact ⟨trivial, by simp, trivial⟩


/-- C1: for the documented good frame, the Sensor Facade yields gas
concentration 29.739 percent by volume (`hex_to_uint(field 1) / 10000`),
temperature 25.05 Celsius (`round(hex_to_uint(field 3) / 10 - 273.15, 2)`),
and exactly the two documented fault descriptions, in order. -/
theorem facade_good_frame_reading :
    gas_concentration (some good_frame) (Except.error []) =
      Except.ok { gas_concentration := 29739 / 1000, faults := "a1aaaa1a",
                  temperature := 2505 / 100 } ∧
    get_fault_descriptions "a1aaaa1a" =
      Except.ok ["Over Range of Conc.%v.v Operation > Full Scale",
                 "Last Reset was because of a Power on Reset"] := by
  constructor
  · have h1 : hexToNat? "000489ae" = some 297390 := by decide
    have h3 : hexToNat? "00000ba6" = some 2982 := by decide
    have hv : validate_response
        ["0000005b", "000489ae", "a1aaaa1a", "00000ba6", "0000031b", "fffffce4", "0000005d"] =
        Except.ok true := by decide
    simp only [gas_concentration, good_frame, List.isEmpty, hv, h1, h3, Bool.false_eq_true,
      if_false, List.getD_cons_zero, List.getD_cons_succ, Except.ok.injEq, Reading.mk.injEq]
    simp only [round2, round_eq]
    norm_num
  · decide

/-- C9: the Fault Bitfield Decoder, given the empty string, fails with the
dedicated `emptyFaultCode` error raised by `validate_fault_code_response`,
which `FaultCodes.__init__` runs before any character iteration or table
lookup (`extract_faults`) begins. -/
theorem empty_fault_code_rejected : FaultCodes_init "" = Except.error FaultErr.emptyFaultCode := by decide

/-- C2 counterexample: `ff` is a valid 2-character hex string, yet ascii-mode
decoding fails (UTF-8-decoding the byte 0xff raises
`UnicodeDecodeError`, since a lone byte 0xff is not valid UTF-8), refuting
that neither call fails for any valid 2-character hex input. -/
theorem decode_ff_ascii_fails : decode_single_hex_value "ff" "ascii" = Except.error DecodeErr.unicodeDecodeError := by decide

/-- C4 counterexample: 20 noise tokens arrive during the first outer
iteration and a full valid frame during the second; if the 20-read cap were
per outer iteration the frame would be read and returned, but in the code
`read_attempts` is never reset, so no token of the frame is ever read: the
read fails with a timeout and an empty accumulator, and the cumulative read
counter is stuck at 20. -/
theorem read_cap_not_reset :
    _read_frame [List.replicate 20 (some "deadbeef"), good_frame.map some] 8 = Except.error [] ∧
    (read_outerS 8 [List.replicate 20 (some "deadbeef"), good_frame.map some] [] [] 0).2 = 20 := by
  decide

/-- C6 counterexample: a 14-token leading fragment followed by a complete
valid frame, all available within the timeout, does not yield the frame: the
cumulative 20-read cap stops the inner loop after the 6th frame token, so the
read times out holding a 6-token accumulator. -/
theorem resync_long_fragment_starves :
    _read_frame [(List.replicate 14 "deadbeef" ++ good_frame).map some] 8 =
      Except.error ["0000005b", "000489ae", "a1aaaa1a", "00000ba6", "0000031b", "fffffce4"] := by
  decide

/-- C3 counterexample: a Frame Synchronizer timeout is not wrapped by the
Facade: `gas_concentration` propagates the `TimeoutError` (carrying the
partly assembled message) unwrapped, because its except clause only lists
`UnicodeDecodeError` and `MessageIntegrityError`. -/
theorem frame_timeout_escapes_unwrapped :
    gas_concentration none (Except.error ["ffffffff"]) =
      Except.error (SensorErr.frameTimeout ["ffffffff"]) ∧
    (SensorErr.frameTimeout ["ffffffff"]).isWrapped = false := by
  exact ⟨rfl, rfl⟩

/-- C5: the Fault Bitfield Decoder iterates the fault-code characters left
to right with a category counter starting at 7 and decremented once per
character (sentinel characters included); sentinels contribute nothing,
non-sentinel characters append `table[category][char]`, a missing entry
aborts immediately with `unknownFaultCode`; `aaaaaaaa` decodes to the empty
list and any code containing the digit 9 fails with `unknownFaultCode`. -/
theorem extract_faults_spec :
    (extract_faults "aaaaaaaa" = Except.ok []) ∧
    (∀ s : String, '9' ∈ s.data → extract_faults s = Except.error FaultErr.unknownFaultCode) ∧
    (∀ (c : Char) (rest : List Char) (cat : Int), c.toLower = 'a' →
      extract_faults_aux (c :: rest) cat = extract_faults_aux rest (cat - 1)) ∧
    (∀ (c : Char) (rest : List Char) (cat : Int), c.toLower ≠ 'a' →
      fault_table cat c = none →
      extract_faults_aux (c :: rest) cat = Except.error FaultErr.unknownFaultCode) ∧
    (∀ (c : Char) (rest : List Char) (cat : Int) (d : String), c.toLower ≠ 'a' →
      fault_table cat c = some d →
      extract_faults_aux (c :: rest) cat =
        (extract_faults_aux rest (cat - 1)).map (fun l => d :: l)) ∧
    (∀ s : String, extract_faults s = extract_faults_aux s.data 7) := by
  refine ⟨by decide, ?_, ?_, ?_, ?_, fun s => rfl⟩
  · intro s h
    exact extract_faults_aux_nine s.data 7 h
  · intro c rest cat hc
    simp only [extract_faults_aux, if_pos hc]
  · intro c rest cat hc hft
    simp only [extract_faults_aux, if_neg hc, hft]
  · intro c rest cat d hc hft
    simp only [extract_faults_aux, if_neg hc, hft]

/-- C5 witness: the digit-9 and sentinel facts instantiated concretely. -/
theorem extract_faults_spec_witness : extract_faults "a9aaaaaa" = Except.error FaultErr.unknownFaultCode :=
  extract_faults_spec.2.1 "a9aaaaaa" (by decide)

/-- C2 amended: for every valid 2-character hex string, decimal mode returns
the base-16 integer parse; ascii mode returns the character with that code
point when the value is below 0x80, and fails with the Unicode decode error
when the value is 0x80 or above. -/
theorem decode_single_hex_value_valid_hex (h : String) (n : Nat) (hlen : h.length = 2) (hhex : hexToNat? h = some n) :
    decode_single_hex_value h "decimal" = Except.ok (DecodedValue.decimal n) ∧
    (n < 128 → decode_single_hex_value h "ascii" = Except.ok (DecodedValue.ascii (Char.ofNat n))) ∧
    (128 ≤ n → decode_single_hex_value h "ascii" = Except.error DecodeErr.unicodeDecodeError) := by
  refine ⟨?_, ?_, ?_⟩
  · simp [decode_single_hex_value, hlen, hhex]
  · intro hn
    simp [decode_single_hex_value, hlen, hhex, hn]
  · intro hn
    simp [decode_single_hex_value, hlen, hhex, Nat.not_lt.mpr hn]

/-- C2 amended witness: both modes evaluated at the test vector `5b` from
the repository tests. -/
theorem decode_single_hex_value_valid_hex_witness :
    decode_single_hex_value "5b" "decimal" = Except.ok (DecodedValue.decimal 91) ∧
    decode_single_hex_value "5b" "ascii" = Except.ok (DecodedValue.ascii (Char.ofNat 91)) :=
  ⟨(decode_single_hex_value_valid_hex "5b" 91 (by decide) (by decide)).1, (decode_single_hex_value_valid_hex "5b" 91 (by decide) (by decide)).2.1 (by decide)⟩

/-- C10: any input whose length is not 2 fails with `invalidLength` for
every mode (the length check runs before the mode dispatch), and any
2-character input with a mode other than ascii or decimal fails with
`unsupportedMode`. -/
theorem decode_single_hex_value_length_mode_errors :
    (∀ hx m : String, hx.length ≠ 2 →
      decode_single_hex_value hx m = Except.error DecodeErr.invalidLength) ∧
    (∀ hx m : String, hx.length = 2 → m ≠ "ascii" → m ≠ "decimal" →
      decode_single_hex_value hx m = Except.error DecodeErr.unsupportedMode) := by
  constructor
  · intro hx m hlen
    simp only [decode_single_hex_value, if_pos hlen]
  · intro hx m hlen hm1 hm2
    have hne : ¬ (hx.length ≠ 2) := by simp [hlen]
    simp only [decode_single_hex_value, if_neg hne, if_neg hm1, if_neg hm2]

/-- C10 witness: a 3-character input in a supported mode, and a 2-character
input in an unsupported mode. -/
theorem decode_single_hex_value_length_mode_errors_witness :
    decode_single_hex_value "abc" "ascii" = Except.error DecodeErr.invalidLength ∧
    decode_single_hex_value "ab" "hex" = Except.error DecodeErr.unsupportedMode :=
  ⟨decode_single_hex_value_length_mode_errors.1 "abc" "ascii" (by decide), decode_single_hex_value_length_mode_errors.2 "ab" "hex" (by decide) (by decide) (by decide)⟩

/-- C8: for every 7-token frame, validation succeeds (returning `True`) if
and only if field 0 is the start marker and field 6 the end marker; a bad
start or bad end is reported carrying the offending token; the result
depends only on fields 0 and 6 (the CRC fields are never inspected); and the
documented bad frame fails with a bad start marker. -/
theorem validate_response_spec :
    (∀ m : List String, m.length = 7 →
      (validate_response m = Except.ok true ↔
        m.getD 0 "" = START_CHAR ∧ m.getD 6 "" = END_CHAR)) ∧
    (∀ m : List String, m.getD 0 "" ≠ START_CHAR →
      validate_response m = Except.error (IntegrityErr.badStart (m.getD 0 ""))) ∧
    (∀ m : List String, m.getD 0 "" = START_CHAR → m.getD 6 "" ≠ END_CHAR →
      validate_response m = Except.error (IntegrityErr.badEnd (m.getD 6 ""))) ∧
    (∀ m m' : List String, m.getD 0 "" = m'.getD 0 "" → m.getD 6 "" = m'.getD 6 "" →
      validate_response m = validate_response m') ∧
    validate_response bad_frame = Except.error (IntegrityErr.badStart "00000000") := by
  refine ⟨?_, ?_, ?_, ?_, by decide⟩
  · intro m _
    constructor
    · intro hok
      unfold validate_response at hok
      by_cases h0 : m.getD 0 "" = START_CHAR
      · by_cases h6 : m.getD 6 "" = END_CHAR
        · exact ⟨h0, h6⟩
        · rw [if_neg (not_not_intro h0), if_pos h6] at hok
          exact Except.noConfusion hok
      · rw [if_pos h0] at hok
        exact Except.noConfusion hok
    · rintro ⟨h0, h6⟩
      unfold validate_response
      rw [if_neg (not_not_intro h0), if_neg (not_not_intro h6)]
  · intro m h0
    unfold validate_response
    rw [if_pos h0]
  · intro m h0 h6
    unfold validate_response
    rw [if_neg (not_not_intro h0), if_pos h6]
  · intro m m' h0 h6
    unfold validate_response
    rw [h0, h6]

/-- C8 witness: the iff at the good frame, and the bad-start error at a
concrete non-marker token. -/
theorem validate_response_spec_witness :
    (validate_response good_frame = Except.ok true ↔
      good_frame.getD 0 "" = START_CHAR ∧ good_frame.getD 6 "" = END_CHAR) ∧
    validate_response ["zz"] = Except.error (IntegrityErr.badStart "zz") :=
  ⟨validate_response_spec.1 good_frame (by decide), validate_response_spec.2.1 ["zz"] (by decide)⟩

/-- C3 amended: a Frame Validator failure is wrapped into the single
`sensorReadError` wrapper carrying the original cause, while a Frame
Synchronizer timeout propagates out of the Facade unwrapped as
`frameTimeout`. -/
theorem gas_concentration_error_wrapping :
    (∀ (raw : List String) (e : IntegrityErr) (r : Except (List String) (List String)),
      raw ≠ [] → validate_response raw = Except.error e →
      gas_concentration (some raw) r = Except.error (SensorErr.sensorReadError e)) ∧
    (∀ p : List String,
      gas_concentration none (Except.error p) = Except.error (SensorErr.frameTimeout p)) := by
  constructor
  · intro raw e r hne hval
    cases raw with
    | nil => exact absurd rfl hne
    | cons a t =>
      simp only [gas_concentration, List.isEmpty, Bool.false_eq_true, if_false, hval]
  · intro p
    rfl

/-- C3 amended witness: wrapping at the documented bad frame, and the
unwrapped timeout at a concrete partly-read message. -/
theorem gas_concentration_error_wrapping_witness :
    gas_concentration (some bad_frame) (Except.error []) =
      Except.error (SensorErr.sensorReadError (IntegrityErr.badStart "00000000")) ∧
    gas_concentration none (Except.error ["ffff"]) =
      Except.error (SensorErr.frameTimeout ["ffff"]) :=
  ⟨gas_concentration_error_wrapping.1 bad_frame (IntegrityErr.badStart "00000000") (Except.error []) (by decide) (by decide),
   gas_concentration_error_wrapping.2 ["ffff"]⟩

/-- C4 amended: the 20-read cap is cumulative over the whole frame read:
from any loop state whose read counter is at most 20 (so in particular from
the initial 0), the counter never exceeds 20 across all remaining outer
iterations together — hence at most 20 reads happen within any single outer
iteration, but the budget never resets. -/
theorem read_attempts_cap_cumulative (ticks : Nat) :
    ∀ (arrivals : List (List (Option String))) (buffer : List (Option String))
      (message : List String) (ra : Nat), ra ≤ 20 →
      (read_outerS ticks arrivals buffer message ra).2 ≤ 20 ∧
      ra ≤ (read_outerS ticks arrivals buffer message ra).2 := by
  induction ticks with
  | zero => intro arrivals buffer message ra h; exact ⟨h, Nat.le_refl ra⟩
  | succ t ih =>
    intro arrivals buffer message ra h
    simp only [read_outerS]
    set r := read_inner (buffer ++ arrivals.headD []) message ra with hr
    have hinner : r.2.2 ≤ 20 ∧ ra ≤ r.2.2 := read_inner_ra_bound _ message ra h
    by_cases h7 : r.2.1.length = 7
    · rw [if_pos h7]
      exact hinner
    · rw [if_neg h7]
      have hrec := ih arrivals.tail r.1 r.2.1 r.2.2 hinner.1
      exact ⟨hrec.1, Nat.le_trans hinner.2 hrec.2⟩

/-- C4 amended witness: the cumulative bound instantiated at the
counterexample source. -/
theorem read_attempts_cap_cumulative_witness :
    (read_outerS 8 [List.replicate 20 (some "deadbeef"), good_frame.map some] [] [] 0).2 ≤ 20 ∧
    0 ≤ (read_outerS 8 [List.replicate 20 (some "deadbeef"), good_frame.map some] [] [] 0).2 :=
  read_attempts_cap_cumulative 8 [List.replicate 20 (some "deadbeef"), good_frame.map some] [] [] 0 (by decide)

/-- C7: a source that only ever delivers noise tokens (undecodable bytes or
tokens other than the start marker) makes the read loop run to its deadline
(the fuel argument models the hard wall-clock deadline, so termination is by
construction) and fail with the timeout error carrying the (empty) partial
accumulator; and whenever fewer than 7 tokens were accumulated by the
deadline, the read fails with the timeout error carrying that accumulator. -/
theorem read_frame_noise_times_out :
    (∀ (ticks : Nat) (arrivals : List (List (Option String))),
      (∀ b ∈ arrivals, ∀ tok ∈ b, noiseTok tok = true) →
      _read_frame arrivals ticks = Except.error []) ∧
    (∀ (arrivals : List (List (Option String))) (ticks : Nat),
      (read_outerS ticks arrivals [] [] 0).1.length < 7 →
      _read_frame arrivals ticks = Except.error (read_outerS ticks arrivals [] [] 0).1) := by
  constructor
  · intro ticks arrivals harr
    have h0 := read_outerS_noise ticks arrivals [] 0 harr (by intro tok htok; simp at htok)
    simp only [_read_frame]
    rw [h0]
    rfl
  · intro arrivals ticks h
    simp only [_read_frame]
    rw [if_pos h]

/-- C7 witness: a concrete noise-only source times out with an empty
accumulator. -/
theorem read_frame_noise_times_out_witness :
    _read_frame [[some "ffffffff", none], [some "cafef00d"]] 3 = Except.error [] :=
  read_frame_noise_times_out.1 3 [[some "ffffffff", none], [some "cafef00d"]] (by decide)

/-- C6 amended: a leading fragment of non-start-marker tokens followed by a
complete valid 7-token frame (interior fields not equal to the end marker),
delivered within the timeout, is fully discarded and exactly the 7 frame
tokens are returned, starting with the start marker — provided the fragment
has at most 13 tokens, so that fragment plus frame fit within the cumulative
20-read cap. -/
theorem resync_discards_fragment (ticks : Nat) (fragment : List String) (s1 s2 s3 s4 s5 : String)
    (hticks : 0 < ticks) (hlen : fragment.length ≤ 13)
    (hfrag : ∀ t ∈ fragment, t ≠ START_FRAME)
    (h1 : s1 ≠ END_FRAME) (h2 : s2 ≠ END_FRAME) (h3 : s3 ≠ END_FRAME)
    (h4 : s4 ≠ END_FRAME) (h5 : s5 ≠ END_FRAME) :
    _read_frame [(fragment ++ [START_FRAME, s1, s2, s3, s4, s5, END_FRAME]).map some] ticks =
      Except.ok [START_FRAME, s1, s2, s3, s4, s5, END_FRAME] := by
  obtain ⟨t, rfl⟩ : ∃ t, ticks = t + 1 := ⟨ticks - 1, by omega⟩
  have hmap : (fragment ++ [START_FRAME, s1, s2, s3, s4, s5, END_FRAME]).map some =
      fragment.map some ++ [some START_FRAME, some s1, some s2, some s3, some s4,
        some s5, some END_FRAME] := by
    simp
  have hin : read_inner ((fragment ++ [START_FRAME, s1, s2, s3, s4, s5, END_FRAME]).map some)
      [] 0 = ([], [START_FRAME, s1, s2, s3, s4, s5, END_FRAME], 0 + fragment.length + 7) := by
    rw [hmap, read_inner_discard fragment _ 0 hfrag (by omega),
      read_inner_frame s1 s2 s3 s4 s5 _ (by omega) h1 h2 h3 h4 h5]
  simp only [_read_frame, read_outerS, List.headD_cons, List.tail_cons, List.nil_append, hin]
  simp

/-- C6 amended witness: a one-token fragment followed by the fields of the
good frame. -/
theorem resync_discards_fragment_witness :
    _read_frame [(["deadbeef"] ++ [START_FRAME, "000489ae", "a1aaaa1a", "00000ba6",
        "0000031b", "fffffce4", END_FRAME]).map some] 3 =
      Except.ok [START_FRAME, "000489ae", "a1aaaa1a", "00000ba6", "0000031b", "fffffce4",
        END_FRAME] :=
  resync_discards_fragment 3 ["deadbeef"] "000489ae" "a1aaaa1a" "00000ba6" "0000031b" "fffffce4" (by decide)
    (by decide) (by decide) (by decide) (by decide) (by decide) (by decide) (by decide)

